import Mathlib

/-!
Shallow embedding of the SpringRollContainer repository
(`src/Container.js`, `src/container/plugins/CaptionsPlugin.js`).

JS values that the container manipulates are modelled explicitly:
plugin constructors as `PluginType` records, the process-wide registry
`PLUGINS` as a `List PluginType`, the Container instance state as `St`,
and effectful methods as functions `St → Out` where `Out` records the
resulting state, the trace of observable effects (local events via
`client.trigger`, channel messages via `client.send`/`client.respond`,
plugin lifecycle hook invocations) and whether a JS exception was thrown.
-/

namespace SpringRoll

/-! ## JSON values and platform builtins used by `_internalOpen`

`JSON.stringify` / `encodeURIComponent` are host builtins; they are
embedded here for the fragment of JSON the container passes around
(`playOptions` is a plain-data options object).  Arrays are omitted:
no claim and no container code path constructs one. -/

mutual

inductive Json where
  | null
  | bool (b : Bool)
  | num (n : Int)
  | str (s : String)
  | obj (fields : JsonFields)

inductive JsonFields where
  | nil
  | cons (key : String) (value : Json) (rest : JsonFields)

end

/-- JS string escaping inside `JSON.stringify` output (quote and backslash;
control characters do not occur in the inputs considered). -/
def jsEscapeChar (c : Char) : String :=
  if c.toNat == 34 then "\\\x22"
  else if c.toNat == 92 then "\\\\"
  else String.mk [c]

def jsEscape (s : String) : String :=
  String.join (s.data.map jsEscapeChar)

mutual

/-- `JSON.stringify` on the embedded JSON fragment. -/
def Json.stringify : Json → String
  | .null => "null"
  | .bool true => "true"
  | .bool false => "false"
  | .num n => toString n
  | .str s => "\x22" ++ jsEscape s ++ "\x22"
  | .obj fs => "\x7b" ++ JsonFields.stringifyFields fs ++ "\x7d"

def JsonFields.stringifyFields : JsonFields → String
  | .nil => ""
  | .cons k v .nil => "\x22" ++ jsEscape k ++ "\x22:" ++ Json.stringify v
  | .cons k v (.cons k2 v2 rest) =>
      "\x22" ++ jsEscape k ++ "\x22:" ++ Json.stringify v ++ ","
        ++ JsonFields.stringifyFields (.cons k2 v2 rest)

end

/-- The characters `encodeURIComponent` leaves unescaped:
ASCII letters, digits, and `- _ . ! ~ * ' ( )` (39 is the apostrophe). -/
def uriUnescaped (c : Char) : Bool :=
  c.isAlpha || c.isDigit ||
  c == '-' || c == '_' || c == '.' || c == '!' || c == '~' ||
  c == '*' || c.toNat == 39 || c == '(' || c == ')'

/-- Uppercase hexadecimal digit for `n < 16`. -/
def hexDigit (n : Nat) : Char :=
  if n < 10 then Char.ofNat (48 + n) else Char.ofNat (55 + n)

/-- UTF-8 bytes of a code point (as `Nat`s). -/
def utf8Bytes (n : Nat) : List Nat :=
  if n < 128 then [n]
  else if n < 2048 then [192 + n / 64, 128 + n % 64]
  else if n < 65536 then [224 + n / 4096, 128 + (n / 64) % 64, 128 + n % 64]
  else [240 + n / 262144, 128 + (n / 4096) % 64, 128 + (n / 64) % 64, 128 + n % 64]

def pctEncodeChar (c : Char) : String :=
  String.mk ((utf8Bytes c.toNat).foldr
    (fun b acc => '%' :: hexDigit (b / 16) :: hexDigit (b % 16) :: acc) [])

/-- The host `encodeURIComponent` builtin. -/
def encodeURIComponent (s : String) : String :=
  String.join (s.data.map (fun c => if uriUnescaped c then String.mk [c] else pctEncodeChar c))

/-- `ws` is an initial segment of `cs`. -/
def charsBegin : List Char → List Char → Bool
  | [], _ => true
  | _ :: _, [] => false
  | a :: as, b :: bs => a == b && charsBegin as bs

/-- `s` starts with the word `w` (JS `/^w/.test(s)`). -/
def beginsWith (s w : String) : Bool :=
  charsBegin w.data s.data

/-- `s` ends with the word `w` (JS `/w$/.test(s)`). -/
def finishesWith (s w : String) : Bool :=
  charsBegin w.data.reverse s.data.reverse

/-- `-1 !== s.indexOf(c)` for a single-character needle. -/
def containsChar (s : String) (c : Char) : Bool :=
  s.data.any (fun d => d == c)

/-! ## Plugin constructors and the process-wide registry

`Container.uses(plugin)` operates on arbitrary JS values.  The aspects
the code observes are: whether the value passes the callability check
(`'function' === typeof plugin`, or the `prototype.constructor` class
heuristic) and its numeric `priority` used by the sort comparator
`(a, b) => b.priority - a.priority`.  An `id` keeps distinct
registrations distinguishable. -/

structure PluginType where
  callable : Bool
  priority : Int
  id : Nat
deriving DecidableEq, Repr

/-- Insert `p` into a descending-priority list, after every element of
priority `≥ p.priority` — the position a stable sort gives a newly
appended element. -/
def insertDesc (p : PluginType) : List PluginType → List PluginType
  | [] => [p]
  | q :: qs => if p.priority ≤ q.priority then q :: insertDesc p qs else p :: q :: qs

/-- Stable sort by descending `priority`: the result of
`PLUGINS.sort((a, b) => b.priority - a.priority)` (ECMAScript
`Array.prototype.sort` is stable, and a stable sort by a total
preorder is unique, so left-to-right insertion realizes it). -/
def sortDesc (l : List PluginType) : List PluginType :=
  l.foldl (fun acc p => insertDesc p acc) []

/-- `Container.uses(plugin)` with an explicit argument:
skip silently unless callable, else push and stable-sort. -/
def usesStep (l : List PluginType) (p : PluginType) : List PluginType :=
  if p.callable then sortDesc (l ++ [p]) else l

/-- The registry contents after a sequence of `Container.uses` calls,
starting from the empty `PLUGINS` array. -/
def registerAll (ps : List PluginType) : List PluginType :=
  ps.foldl usesStep []

/-- Modelled from the spec: `BasePlugin` (imported from `./plugins`, not in
`src/`) is a plugin base class, hence callable; its numeric `priority` is
not fixed by the spec, so it is a parameter here. -/
def BasePluginModel (priority : Int) : PluginType :=
  { callable := true, priority := priority, id := 0 }

/-- `Container.uses()` with the argument omitted: the parameter defaults
to `BasePlugin`. -/
def usesNoArg (priority : Int) (l : List PluginType) : List PluginType :=
  usesStep l (BasePluginModel priority)

/-- The registry is sorted by non-increasing priority. -/
def sortedDesc (l : List PluginType) : Prop :=
  List.Pairwise (fun a b => b.priority ≤ a.priority) l

instance (l : List PluginType) : Decidable (sortedDesc l) := by
  unfold sortedDesc; infer_instance

/-! ## Container instance state and effect traces

`St` is the mutable per-instance state of a `Container`:
`main` is whether the iframe element reference is still held (set by the
constructor, nulled by `destroy`), `hasClient` whether `this.client`
currently holds a Bellhop instance (the constructor creates one,
`initClient` replaces it, `destroyClient` nulls it), `src` the iframe's
`src` attribute and `cssLoading` the presence of the `loading` CSS class.
`plugins` is the instance list built in the constructor by mapping the
registry (plugin instances are identified with their constructors'
records here; their hooks are external no-throw callbacks, observed
only through the trace). -/

structure St where
  main : Bool
  hasClient : Bool
  loaded : Bool
  loading : Bool
  plugins : List PluginType
  src : String
  cssLoading : Bool
deriving DecidableEq, Repr

/-- Values passed to `client.respond`. -/
inductive RespVal where
  | b (x : Bool)
  | po (x : Option Json)

/-- Observable effects of container methods. -/
inductive Ev where
  | localEvent (name : String)
  | channelSend (name : String)
  | channelRespond (name : String) (v : RespVal)
  | hookOpen (id : Nat)
  | hookOpened (id : Nat)
  | hookClose (id : Nat)
  | hookClosed (id : Nat)
  | hookTeardown (id : Nat)

/-- Outcome of running a container method: final state, effect trace, and
whether a JS exception escaped (`err` keeps the state and the trace
accumulated up to the throw). -/
inductive Out where
  | ok (s : St) (tr : List Ev)
  | err (s : St) (tr : List Ev) (msg : String)

/-- Sequencing of effectful statements. -/
def Out.seq (o : Out) (f : St → Out) : Out :=
  match o with
  | .ok s tr =>
    match f s with
    | .ok s' tr' => .ok s' (tr ++ tr')
    | .err s' tr' m => .err s' (tr ++ tr') m
  | .err s tr m => .err s tr m

/-- `this.client.trigger(name)`: emits a local event; throws a
`TypeError` when `this.client` is `null`. -/
def clientTrigger (name : String) (s : St) : Out :=
  if s.hasClient then .ok s [.localEvent name]
  else .err s [] "TypeError: this.client is null"

/-- `this.client.send(name)`. -/
def clientSend (name : String) (s : St) : Out :=
  if s.hasClient then .ok s [.channelSend name]
  else .err s [] "TypeError: this.client is null"

/-- `this.client.respond(name, value)`. -/
def clientRespond (name : String) (v : RespVal) (s : St) : Out :=
  if s.hasClient then .ok s [.channelRespond name v]
  else .err s [] "TypeError: this.client is null"

/-- `destroyClient()`: `if (this.client) { this.client.destroy(); this.client = null; }`. -/
def destroyClient (s : St) : Out :=
  .ok { s with hasClient := false } []

/-- `this.main.setAttribute('src', v)`. -/
def setMainSrc (v : String) (s : St) : Out :=
  if s.main then .ok { s with src := v } []
  else .err s [] "TypeError: this.main is null"

/-- `this.main.classList.remove('loading')`. -/
def mainRemoveLoadingClass (s : St) : Out :=
  if s.main then .ok { s with cssLoading := false } []
  else .err s [] "TypeError: this.main is null"

/-- `this.main.classList.add('loading')`. -/
def mainAddLoadingClass (s : St) : Out :=
  if s.main then .ok { s with cssLoading := true } []
  else .err s [] "TypeError: this.main is null"

/-- `Container.reset()`: fan out `closed` to plugins in reverse priority
order and emit the `closed` event when something was loaded or loading,
destroy the Bellhop instance, clear the flags, clear the iframe src and
the `loading` class. -/
def reset (s : St) : Out :=
  let wasLoaded := s.loaded || s.loading
  (if wasLoaded then
      Out.ok s (s.plugins.reverse.map (fun p => Ev.hookClosed p.id))
    else Out.ok s []).seq (fun s =>
  (if wasLoaded then clientTrigger "closed" s else Out.ok s []).seq (fun s =>
  (destroyClient s).seq (fun s =>
  (Out.ok { s with loaded := false, loading := false } []).seq (fun s =>
  (setMainSrc "" s).seq (fun s =>
  mainRemoveLoadingClass s)))))

/-- `Container.initClient()`: a fresh Bellhop instance is created,
connected to the iframe, and its event handlers are wired. -/
def initClient (s : St) : Out :=
  .ok { s with hasClient := true } []

/-- `Container.onLoadDone()`, the handler of the messaging `loaded` event. -/
def onLoadDone (s : St) : Out :=
  (Out.ok { s with loading := false, loaded := true } []).seq (fun s =>
  (mainRemoveLoadingClass s).seq (fun s =>
  (Out.ok s (s.plugins.map (fun p => Ev.hookOpened p.id))).seq (fun s =>
  clientTrigger "opened" s)))

/-- `Container.onEndGame()`, the handler of the messaging `endGame` event. -/
def onEndGame (s : St) : Out :=
  reset s

/-- The open options after `_internalOpen`'s destructuring
`{ singlePlay = false, playOptions = null }`. -/
structure OpenOptions where
  singlePlay : Bool
  playOptions : Option Json

/-- The iframe path computed by `_internalOpen`: when `playOptions` is
non-null, append `playOptions=<encodeURIComponent(JSON.stringify(po))>`
with `?` when the path has no `?` yet, else with `&`. -/
def computePath (userPath : String) (po : Option Json) : String :=
  match po with
  | none => userPath
  | some j =>
    let qs := "playOptions=" ++ encodeURIComponent (Json.stringify j)
    if containsChar userPath '?' then userPath ++ "&" ++ qs else userPath ++ "?" ++ qs

/-- `Container._internalOpen(userPath, {singlePlay, playOptions})`.
`features` is the result of the external `Features.basic()` check:
`some err` when the environment capability check reports failure. -/
def internalOpen (features : Option String) (userPath : String)
    (opts : OpenOptions) (s : St) : Out :=
  (reset s).seq (fun s =>
  match features with
  | some _ => clientTrigger "unsupported" s
  | none =>
    (Out.ok { s with loading := true } []).seq (fun s =>
    (initClient s).seq (fun s =>
    (Out.ok s (s.plugins.map (fun p => Ev.hookOpen p.id))).seq (fun s =>
    (mainAddLoadingClass s).seq (fun s =>
    (setMainSrc (computePath userPath opts.playOptions) s).seq (fun s =>
    (clientRespond "singlePlay" (RespVal.b opts.singlePlay) s).seq (fun s =>
    (clientRespond "playOptions" (RespVal.po opts.playOptions) s).seq (fun s =>
    clientTrigger "open" s))))))))

/-- The `options` argument of `openPath` as the JS caller supplies it:
a boolean (deprecated signature), an options object, or omitted
(defaulting to `\x7b\x7d`, which `_internalOpen` destructures to
`singlePlay = false, playOptions = null`). -/
inductive OpenArg where
  | bool (b : Bool)
  | opts (o : OpenOptions)
  | missing

/-- The effective options `openPath` passes to `_internalOpen`:
`if ('boolean' === typeof options) options = { singlePlay: false, playOptions: playOptions }`.
`poArg` is `openPath`'s third parameter (JS default `\x7b\x7d`). -/
def openPathOptions (options : OpenArg) (poArg : Json) : OpenOptions :=
  match options with
  | .bool _ => { singlePlay := false, playOptions := some poArg }
  | .opts o => o
  | .missing => { singlePlay := false, playOptions := none }

/-- `Container.openPath(path, options, playOptions)`. -/
def openPath (features : Option String) (path : String) (options : OpenArg)
    (poArg : Json) (s : St) : Out :=
  internalOpen features path (openPathOptions options poArg) s

/-- `Container.close()`. -/
def close (s : St) : Out :=
  if s.loading || s.loaded then
    (Out.ok s (s.plugins.map (fun p => Ev.hookClose p.id))).seq (fun s =>
    (clientTrigger "close" s).seq (fun s =>
    clientSend "close" s))
  else
    reset s

/-- `Container.destroy()`: reset, fan out `teardown` in reverse priority
order, release the iframe/options/dom references. -/
def destroy (s : St) : Out :=
  (reset s).seq (fun s =>
  (Out.ok s (s.plugins.reverse.map (fun p => Ev.hookTeardown p.id))).seq (fun s =>
  Out.ok { s with main := false } []))

/-- `new Container(iframeSelector, options)`: `query` is the result of
`document.querySelector(iframeSelector)` (`none` when no element
matches); `registry` is the current contents of `PLUGINS`, mapped to
instances.  Throws before initializing any field when the selector
resolves to nothing.  (The iframe's pre-existing `src` attribute is not
touched by the constructor; it is modelled as `""`, and no claim reads
`src` before `open`/`reset` assign it.) -/
def constructContainer (query : Option Unit) (registry : List PluginType) :
    Except String St :=
  match query with
  | none => .error "No iframe was found with the provided selector"
  | some _ =>
    .ok { main := true, hasClient := true, loaded := false, loading := false,
          plugins := registry, src := "", cssLoading := false }

/-- The `singlePlay` values responded over the channel in a trace
(observable difference used to compare open calls). -/
def respondedSinglePlays (o : Out) : List Bool :=
  match o with
  | .ok _ tr | .err _ tr _ =>
    tr.filterMap (fun e =>
      match e with
      | .channelRespond _ (.b x) => some x
      | _ => none)

/-- The teardown-hook trace entries, in order. -/
def teardownEvents (tr : List Ev) : List Nat :=
  tr.filterMap (fun e =>
    match e with
    | .hookTeardown i => some i
    | _ => none)

/-- The closed-hook trace entries, in order. -/
def closedHookEvents (tr : List Ev) : List Nat :=
  tr.filterMap (fun e =>
    match e with
    | .hookClosed i => some i
    | _ => none)

/-- The channel messages (`client.send`) in a trace. -/
def channelSends (tr : List Ev) : List String :=
  tr.filterMap (fun e =>
    match e with
    | .channelSend n => some n
    | _ => none)

/-! ## CaptionsPlugin captions-styles state

From `src/container/plugins/CaptionsPlugin.js`.  `_captionsStyles` always
holds the six documented fields (it is initialized by merging in
the default values); the claims are about those fields, so the merge argument is
modelled as a patch of the six fields.  `SavedData.write` and
`client.send` are external key/value-storage and channel effects with no
bearing on the returned styles. -/

structure CaptionsStyles where
  size : String
  background : String
  color : String
  edge : String
  font : String
  align : String
deriving DecidableEq, Repr

/-- `DEFAULT_CAPTIONS_STYLES`. -/
def DEFAULT_CAPTIONS_STYLES : CaptionsStyles :=
  { size := "md", background := "black-semi", color := "white",
    edge := "none", font := "arial", align := "top" }

/-- A styles object passed to `setCaptionsStyles`: each field present or
absent. -/
structure StylesPatch where
  size : Option String
  background : Option String
  color : Option String
  edge : Option String
  font : Option String
  align : Option String
deriving DecidableEq, Repr

/-- `Object.merge(this._captionsStyles, styles)`: provided fields
overwrite. -/
def applyPatch (st : CaptionsStyles) (p : StylesPatch) : CaptionsStyles :=
  { size := p.size.getD st.size,
    background := p.background.getD st.background,
    color := p.color.getD st.color,
    edge := p.edge.getD st.edge,
    font := p.font.getD st.font,
    align := p.align.getD st.align }

inductive StyleKey where
  | size | background | color | edge | font | align
deriving DecidableEq, Repr

def setField (st : CaptionsStyles) (k : StyleKey) (v : String) : CaptionsStyles :=
  match k with
  | .size => { st with size := v }
  | .background => { st with background := v }
  | .color => { st with color := v }
  | .edge => { st with edge := v }
  | .font => { st with font := v }
  | .align => { st with align := v }

def getField (st : CaptionsStyles) (k : StyleKey) : String :=
  match k with
  | .size => st.size
  | .background => st.background
  | .color => st.color
  | .edge => st.edge
  | .font => st.font
  | .align => st.align

/-- The color alternatives of `colorReg` / `backgroundReg`. -/
def colorWords : List String :=
  ["black", "white", "red", "yellow", "pink", "blue"]

/-- `colorReg = /^(black|white|red|yellow|pink|blue)(-semi)?$/` — fully
anchored: exact match of a color word with optional `-semi`. -/
def colorMatches (s : String) : Bool :=
  colorWords.any (fun w => s == w || s == w ++ "-semi")

/-- `backgroundReg = /^none|((black|white|red|yellow|pink|blue)(-semi)?)$/`.
Regex alternation binds looser than the anchors, so `.test` succeeds when
the string starts with `none` or ends with a color word with optional
`-semi`. -/
def backgroundMatches (s : String) : Bool :=
  beginsWith s "none" ||
    colorWords.any (fun w => finishesWith s w || finishesWith s (w ++ "-semi"))

/-- `sizeReg = /^(xs|sm|md|lg|xl)$/`. -/
def sizeMatches (s : String) : Bool :=
  ["xs", "sm", "md", "lg", "xl"].any (fun w => s == w)

/-- `edgeReg = /^(raise|depress|uniform|drop|none)$/`. -/
def edgeMatches (s : String) : Bool :=
  ["raise", "depress", "uniform", "drop", "none"].any (fun w => s == w)

/-- `fontReg` — exact match of one of the thirteen font alternatives. -/
def fontMatches (s : String) : Bool :=
  ["georgia", "palatino", "times", "arial", "arial-black", "comic-sans",
   "impact", "lucida", "tahoma", "trebuchet", "verdana", "courier",
   "console"].any (fun w => s == w)

/-- `alignReg = /^(top|bottom)$/`. -/
def alignMatches (s : String) : Bool :=
  ["top", "bottom"].any (fun w => s == w)

/-- The `if (DEBUG)` validation block of `setCaptionsStyles`, in source
order (`!styles.color` is the JS falsy check: the empty string). -/
def validateStyles (st : CaptionsStyles) : Except String Unit :=
  if st.color == "" || !colorMatches st.color then
    .error ("Setting captions color style is invalid value : " ++ st.color)
  else if st.background == "" || !backgroundMatches st.background then
    .error ("Setting captions background style is invalid value : " ++ st.background)
  else if st.size == "" || !sizeMatches st.size then
    .error ("Setting captions size style is invalid value : " ++ st.size)
  else if st.edge == "" || !edgeMatches st.edge then
    .error ("Setting captions edge style is invalid value : " ++ st.edge)
  else if st.font == "" || !fontMatches st.font then
    .error ("Setting captions font style is invalid value : " ++ st.font)
  else if st.align == "" || !alignMatches st.align then
    .error ("Setting captions align style is invalid value : " ++ st.align)
  else .ok ()

/-- All six fields pass their patterns. -/
def validStyles (st : CaptionsStyles) : Bool :=
  colorMatches st.color && backgroundMatches st.background &&
  sizeMatches st.size && edgeMatches st.edge &&
  fontMatches st.font && alignMatches st.align

/-- Provided patch fields pass their patterns. -/
def validPatch (p : StylesPatch) : Bool :=
  p.color.all colorMatches && p.background.all backgroundMatches &&
  p.size.all sizeMatches && p.edge.all edgeMatches &&
  p.font.all fontMatches && p.align.all alignMatches

/-- The `styles` argument of `setCaptionsStyles`: an object, a
property-name/value pair, or omitted (`clearCaptionsStyles` calls it with
no argument; `typeof undefined` is neither `'object'` nor `'string'`, so
no merge happens). -/
inductive StylesArg where
  | obj (p : StylesPatch)
  | strKey (k : StyleKey) (value : String)
  | absent
deriving DecidableEq, Repr

/-- `setCaptionsStyles(styles, value)`: merge/assign, then validate when
the `DEBUG` build flag is set (throwing on an invalid value), then
persist.  Returns the new `_captionsStyles`. -/
def setCaptionsStyles (debug : Bool) (st : CaptionsStyles) (arg : StylesArg) :
    Except String CaptionsStyles :=
  let merged :=
    match arg with
    | .obj p => applyPatch st p
    | .strKey k v => setField st k v
    | .absent => st
  if debug then
    match validateStyles merged with
    | .error e => .error e
    | .ok _ => .ok merged
  else .ok merged

/-- `getCaptionsStyles()` with no property argument: the whole collection. -/
def getCaptionsStyles (st : CaptionsStyles) : CaptionsStyles :=
  st

/-- `getCaptionsStyles(prop)`. -/
def getCaptionsStylesProp (st : CaptionsStyles) (k : StyleKey) : String :=
  getField st k

/-- `clearCaptionsStyles()`: replace `_captionsStyles` by a copy of
the default values, then `setCaptionsStyles()` with no argument. -/
def clearCaptionsStyles (debug : Bool) : Except String CaptionsStyles :=
  setCaptionsStyles debug DEFAULT_CAPTIONS_STYLES .absent

/-! ## Shared concrete values for witnesses -/

/-- A freshly constructed container with an empty plugin list: iframe
found, the constructor's Bellhop instance present, nothing loaded. -/
def st0 : St :=
  { main := true, hasClient := true, loaded := false, loading := false,
    plugins := [], src := "", cssLoading := false }

/-- A container in the `loaded` state with two plugin instances. -/
def stLoaded : St :=
  { main := true, hasClient := true, loaded := true, loading := false,
    plugins := [⟨true, 5, 2⟩, ⟨true, 1, 0⟩], src := "/old", cssLoading := false }

/-- A container in the `loading` state with two plugin instances. -/
def stLoading : St :=
  { main := true, hasClient := true, loaded := false, loading := true,
    plugins := [⟨true, 5, 2⟩, ⟨true, 1, 0⟩], src := "/game", cssLoading := true }

/-- A concrete registration sequence: two priority-5 callables
registered in the order ids 2 then 3, one non-callable, one priority-1
callable. -/
def regSeq1 : List PluginType :=
  [⟨true, 1, 0⟩, ⟨false, 9, 1⟩, ⟨true, 5, 2⟩, ⟨true, 5, 3⟩]

/-- A freshly constructed container whose instances were mapped from
`regSeq1`'s registry. -/
def stReg : St :=
  { main := true, hasClient := true, loaded := false, loading := false,
    plugins := registerAll regSeq1, src := "", cssLoading := false }

/-- The play options `\x7blevel: 2\x7d` of the spec's scenario. -/
def cPlayOptions : Json :=
  Json.obj (JsonFields.cons "level" (Json.num 2) JsonFields.nil)

/-- The styles patch `\x7bfont: 'comic-sans'\x7d` used by the repository's
captions test. -/
def cPatch : StylesPatch :=
  { size := none, background := none, color := none, edge := none,
    font := some "comic-sans", align := none }

/-! ## Registry lemmas -/

theorem mem_insertDesc (x p : PluginType) (l : List PluginType) :
    x ∈ insertDesc p l ↔ x = p ∨ x ∈ l := by
  induction l with
  | nil => simp [insertDesc]
  | cons q qs ih =>
    by_cases hpq : p.priority ≤ q.priority
    · simp only [insertDesc, if_pos hpq, List.mem_cons, ih]
      tauto
    · simp only [insertDesc, if_neg hpq, List.mem_cons]

theorem length_insertDesc (p : PluginType) (l : List PluginType) :
    (insertDesc p l).length = l.length + 1 := by
  induction l with
  | nil => rfl
  | cons q qs ih =>
    by_cases hpq : p.priority ≤ q.priority
    · simp [insertDesc, if_pos hpq, ih]
    · simp [insertDesc, if_neg hpq]

theorem sortedDesc_insertDesc (p : PluginType) (l : List PluginType)
    (h : sortedDesc l) : sortedDesc (insertDesc p l) := by
  induction l with
  | nil => simp [insertDesc, sortedDesc]
  | cons q qs ih =>
    rcases List.pairwise_cons.mp h with ⟨hq, hqs⟩
    by_cases hpq : p.priority ≤ q.priority
    · simp only [insertDesc, if_pos hpq]
      refine List.pairwise_cons.mpr ⟨?_, ih hqs⟩
      intro x hx
      rcases (mem_insertDesc x p qs).mp hx with rfl | hx'
      · exact hpq
      · exact hq x hx'
    · simp only [insertDesc, if_neg hpq]
      refine List.pairwise_cons.mpr ⟨?_, h⟩
      intro x hx
      rcases List.mem_cons.mp hx with rfl | hx'
      · exact le_of_lt (not_le.mp hpq)
      · exact le_trans (hq x hx') (le_of_lt (not_le.mp hpq))

theorem insertDesc_eq_append (p : PluginType) (l : List PluginType)
    (h : ∀ q ∈ l, p.priority ≤ q.priority) : insertDesc p l = l ++ [p] := by
  induction l with
  | nil => rfl
  | cons q qs ih =>
    have hq := h q (List.mem_cons_self q qs)
    simp [insertDesc, if_pos hq, ih (fun x hx => h x (List.mem_cons_of_mem q hx))]

theorem sortDesc_append_singleton (l : List PluginType) (p : PluginType) :
    sortDesc (l ++ [p]) = insertDesc p (sortDesc l) := by
  simp [sortDesc, List.foldl_append]

theorem sortDesc_eq_self (l : List PluginType) (h : sortedDesc l) :
    sortDesc l = l := by
  induction l using List.reverseRecOn with
  | nil => rfl
  | append_singleton l p ih =>
    have hparts := List.pairwise_append.mp h
    rw [sortDesc_append_singleton, ih hparts.1]
    exact insertDesc_eq_append p l
      (fun q hq => hparts.2.2 q hq p (List.mem_singleton.mpr rfl))

theorem filter_insertDesc_ne (p : PluginType) (l : List PluginType) (k : Int)
    (h : (p.priority == k) = false) :
    (insertDesc p l).filter (fun q => q.priority == k)
      = l.filter (fun q => q.priority == k) := by
  induction l with
  | nil => simp [insertDesc, h]
  | cons q qs ih =>
    by_cases hpq : p.priority ≤ q.priority
    · simp only [insertDesc, if_pos hpq, List.filter_cons, ih]
    · simp only [insertDesc, if_neg hpq, List.filter_cons, h]
      simp

theorem filter_insertDesc_eq (p : PluginType) (l : List PluginType) (k : Int)
    (hs : sortedDesc l) (h : (p.priority == k) = true) :
    (insertDesc p l).filter (fun q => q.priority == k)
      = l.filter (fun q => q.priority == k) ++ [p] := by
  induction l with
  | nil => simp [insertDesc, h]
  | cons q qs ih =>
    rcases List.pairwise_cons.mp hs with ⟨hq, hqs⟩
    by_cases hpq : p.priority ≤ q.priority
    · simp only [insertDesc, if_pos hpq, List.filter_cons, ih hqs]
      by_cases hqk : (q.priority == k) = true
      · simp [hqk]
      · simp [hqk]
    · have hlt : q.priority < p.priority := not_le.mp hpq
      have hpk : p.priority = k := beq_iff_eq.mp h
      have hnone : ∀ x ∈ q :: qs, ¬((fun q => q.priority == k) x = true) := by
        intro x hx
        have hxle : x.priority ≤ q.priority := by
          rcases List.mem_cons.mp hx with rfl | hx'
          · exact le_refl _
          · exact hq x hx'
        have hxk : x.priority < k := lt_of_le_of_lt hxle (hpk ▸ hlt)
        simp [beq_iff_eq]
        exact ne_of_lt hxk
      have hfil : (q :: qs).filter (fun q => q.priority == k) = [] :=
        List.filter_eq_nil_iff.mpr hnone
      simp only [insertDesc, if_neg hpq, List.filter_cons, h, hfil]
      simp

theorem length_sortDesc_foldl (l acc : List PluginType) :
    (l.foldl (fun a p => insertDesc p a) acc).length = acc.length + l.length := by
  induction l generalizing acc with
  | nil => simp
  | cons p ps ih =>
    simp only [List.foldl_cons, ih, length_insertDesc, List.length_cons]
    omega

theorem mem_sortDesc_foldl (x : PluginType) (l acc : List PluginType) :
    x ∈ l.foldl (fun a p => insertDesc p a) acc ↔ x ∈ acc ∨ x ∈ l := by
  induction l generalizing acc with
  | nil => simp
  | cons p ps ih =>
    simp only [List.foldl_cons, ih, mem_insertDesc, List.mem_cons]
    tauto

theorem length_sortDesc (l : List PluginType) :
    (sortDesc l).length = l.length := by
  simpa using length_sortDesc_foldl l []

theorem mem_sortDesc (x : PluginType) (l : List PluginType) :
    x ∈ sortDesc l ↔ x ∈ l := by
  simpa using mem_sortDesc_foldl x l []

/-- The main registry invariant, generalized over the accumulator:
after any further registration sequence the registry stays sorted,
holds only callable values, and each priority class lists its members
in registration order. -/
theorem registerAll_invariant (ps : List PluginType) (acc : List PluginType)
    (hs : sortedDesc acc) (hc : ∀ q ∈ acc, q.callable = true) :
    sortedDesc (ps.foldl usesStep acc)
    ∧ (∀ q ∈ ps.foldl usesStep acc, q.callable = true)
    ∧ ∀ k : Int, (ps.foldl usesStep acc).filter (fun q => q.priority == k)
        = acc.filter (fun q => q.priority == k)
          ++ ps.filter (fun p => p.callable && p.priority == k) := by
  induction ps generalizing acc with
  | nil => simpa using ⟨hs, hc⟩
  | cons p ps ih =>
    by_cases hcall : p.callable = true
    · have hstep : usesStep acc p = insertDesc p acc := by
        rw [usesStep, if_pos hcall, sortDesc_append_singleton, sortDesc_eq_self acc hs]
      have hs' : sortedDesc (insertDesc p acc) := sortedDesc_insertDesc p acc hs
      have hc' : ∀ q ∈ insertDesc p acc, q.callable = true := by
        intro q hq
        rcases (mem_insertDesc q p acc).mp hq with rfl | hq'
        · exact hcall
        · exact hc q hq'
      obtain ⟨H1, H2, H3⟩ := ih (insertDesc p acc) hs' hc'
      rw [List.foldl_cons, hstep]
      refine ⟨H1, H2, ?_⟩
      intro k
      rw [H3 k, List.filter_cons]
      by_cases hpk : (p.priority == k) = true
      · rw [filter_insertDesc_eq p acc k hs hpk]
        simp [hcall, hpk]
      · rw [filter_insertDesc_ne p acc k (by simpa using hpk)]
        simp [hcall, hpk]
    · have hstep : usesStep acc p = acc := by
        rw [usesStep, if_neg hcall]
      obtain ⟨H1, H2, H3⟩ := ih acc hs hc
      rw [List.foldl_cons, hstep]
      refine ⟨H1, H2, ?_⟩
      intro k
      rw [H3 k, List.filter_cons]
      have : (p.callable && p.priority == k) = false := by
        simp [Bool.eq_false_iff.mpr hcall]
      simp [this]

/-! ## Container evaluation lemmas -/

theorem reset_spec (s : St) (hm : s.main = true)
    (hc : (s.loaded || s.loading) = true → s.hasClient = true) :
    reset s = .ok { s with
        hasClient := false,
        loaded := false,
        loading := false,
        src := "",
        cssLoading := false }
      (if s.loaded || s.loading
        then s.plugins.reverse.map (fun p => Ev.hookClosed p.id) ++ [Ev.localEvent "closed"]
        else []) := by
  by_cases h : (s.loaded || s.loading) = true
  · have hcl := hc h
    simp [reset, Out.seq, clientTrigger, destroyClient, setMainSrc,
          mainRemoveLoadingClass, h, hcl, hm]
  · have h' : (s.loaded || s.loading) = false := by
      simpa using h
    simp [reset, Out.seq, clientTrigger, destroyClient, setMainSrc,
          mainRemoveLoadingClass, h', hm]

theorem internalOpen_ok (path : String) (opts : OpenOptions) (s : St)
    (hm : s.main = true)
    (hc : (s.loaded || s.loading) = true → s.hasClient = true) :
    internalOpen none path opts s =
      .ok { s with
          hasClient := true,
          loaded := false,
          loading := true,
          src := computePath path opts.playOptions,
          cssLoading := true }
        ((if s.loaded || s.loading
            then s.plugins.reverse.map (fun p => Ev.hookClosed p.id) ++ [Ev.localEvent "closed"]
            else [])
          ++ (s.plugins.map (fun p => Ev.hookOpen p.id)
              ++ [Ev.channelRespond "singlePlay" (RespVal.b opts.singlePlay),
                  Ev.channelRespond "playOptions" (RespVal.po opts.playOptions),
                  Ev.localEvent "open"])) := by
  rw [internalOpen, reset_spec s hm hc]
  simp [Out.seq, clientTrigger, clientRespond, initClient, mainAddLoadingClass,
        setMainSrc, hm]

theorem internalOpen_unsupported_spec (e path : String) (opts : OpenOptions) (s : St)
    (hm : s.main = true)
    (hc : (s.loaded || s.loading) = true → s.hasClient = true) :
    internalOpen (some e) path opts s =
      .err { s with
          hasClient := false,
          loaded := false,
          loading := false,
          src := "",
          cssLoading := false }
        (if s.loaded || s.loading
          then s.plugins.reverse.map (fun p => Ev.hookClosed p.id) ++ [Ev.localEvent "closed"]
          else [])
        "TypeError: this.client is null" := by
  rw [internalOpen, reset_spec s hm hc]
  simp [Out.seq, clientTrigger]

theorem onLoadDone_spec (s : St) (hm : s.main = true) (hc : s.hasClient = true) :
    onLoadDone s = .ok { s with
        loading := false,
        loaded := true,
        cssLoading := false }
      (s.plugins.map (fun p => Ev.hookOpened p.id) ++ [Ev.localEvent "opened"]) := by
  simp [onLoadDone, Out.seq, mainRemoveLoadingClass, clientTrigger, hm, hc]

theorem close_spec_open (s : St) (hl : (s.loading || s.loaded) = true)
    (hc : s.hasClient = true) :
    close s = .ok s (s.plugins.map (fun p => Ev.hookClose p.id)
      ++ [Ev.localEvent "close", Ev.channelSend "close"]) := by
  simp [close, hl, Out.seq, clientTrigger, clientSend, hc]

theorem close_spec_idle (s : St) (hl : (s.loading || s.loaded) = false) :
    close s = reset s := by
  simp [close, hl]

theorem destroy_spec (s : St) (hm : s.main = true)
    (hc : (s.loaded || s.loading) = true → s.hasClient = true) :
    destroy s = .ok { s with
        main := false,
        hasClient := false,
        loaded := false,
        loading := false,
        src := "",
        cssLoading := false }
      ((if s.loaded || s.loading
          then s.plugins.reverse.map (fun p => Ev.hookClosed p.id) ++ [Ev.localEvent "closed"]
          else [])
        ++ s.plugins.reverse.map (fun p => Ev.hookTeardown p.id)) := by
  rw [destroy, reset_spec s hm hc]
  simp [Out.seq]

/-! ## Captions lemmas -/

theorem beq_empty_false_of_matches {f : String → Bool} (hf : f "" = false)
    {s : String} (h : f s = true) : (s == "") = false := by
  cases hbe : s == ""
  · rfl
  · exfalso
    have hs : s = "" := eq_of_beq hbe
    rw [hs, hf] at h
    exact Bool.false_ne_true h

theorem validateStyles_ok (st : CaptionsStyles) (h : validStyles st = true) :
    validateStyles st = .ok () := by
  have hs := h
  simp only [validStyles, Bool.and_eq_true] at hs
  obtain ⟨⟨⟨⟨⟨h1, h2⟩, h3⟩, h4⟩, h5⟩, h6⟩ := hs
  have e1 := beq_empty_false_of_matches (by decide) h1
  have e2 := beq_empty_false_of_matches (f := backgroundMatches) (by decide) h2
  have e3 := beq_empty_false_of_matches (f := sizeMatches) (by decide) h3
  have e4 := beq_empty_false_of_matches (f := edgeMatches) (by decide) h4
  have e5 := beq_empty_false_of_matches (f := fontMatches) (by decide) h5
  have e6 := beq_empty_false_of_matches (f := alignMatches) (by decide) h6
  simp [validateStyles, h1, h2, h3, h4, h5, h6, e1, e2, e3, e4, e5, e6]

theorem validStyles_applyPatch (st : CaptionsStyles) (p : StylesPatch)
    (hst : validStyles st = true) (hp : validPatch p = true) :
    validStyles (applyPatch st p) = true := by
  simp only [validStyles, Bool.and_eq_true] at hst
  obtain ⟨⟨⟨⟨⟨h1, h2⟩, h3⟩, h4⟩, h5⟩, h6⟩ := hst
  simp only [validPatch, Bool.and_eq_true] at hp
  obtain ⟨⟨⟨⟨⟨g1, g2⟩, g3⟩, g4⟩, g5⟩, g6⟩ := hp
  simp only [validStyles, applyPatch, Bool.and_eq_true]
  refine ⟨⟨⟨⟨⟨?_, ?_⟩, ?_⟩, ?_⟩, ?_⟩, ?_⟩
  · cases hv : p.color with
    | none => simpa using h1
    | some v => rw [hv] at g1; simpa using g1
  · cases hv : p.background with
    | none => simpa using h2
    | some v => rw [hv] at g2; simpa using g2
  · cases hv : p.size with
    | none => simpa using h3
    | some v => rw [hv] at g3; simpa using g3
  · cases hv : p.edge with
    | none => simpa using h4
    | some v => rw [hv] at g4; simpa using g4
  · cases hv : p.font with
    | none => simpa using h5
    | some v => rw [hv] at g5; simpa using g5
  · cases hv : p.align with
    | none => simpa using h6
    | some v => rw [hv] at g6; simpa using g6

theorem setCaptionsStyles_ok (debug : Bool) (st : CaptionsStyles) (p : StylesPatch)
    (hvalid : validStyles (applyPatch st p) = true) :
    setCaptionsStyles debug st (.obj p) = .ok (applyPatch st p) := by
  cases debug with
  | false => rfl
  | true =>
    simp [setCaptionsStyles, validateStyles_ok (applyPatch st p) hvalid]

theorem filterMap_const_none {α β : Type} (l : List α) :
    l.filterMap (fun _ => (none : Option β)) = [] := by
  induction l with
  | nil => rfl
  | cons a l ih => simp [List.filterMap_cons, ih]

theorem filterMap_some_comp {α β : Type} (f : α → β) (l : List α) :
    l.filterMap (fun x => some (f x)) = l.map f := by
  induction l with
  | nil => rfl
  | cons a l ih => simp [List.filterMap_cons, ih]

/-! ## Claims -/

/-- C1: For every sequence of `Container.uses` calls with arbitrary
values, the static plugins list is always sorted by non-increasing
numeric priority, ties keep registration-relative order (each priority
class equals the registration subsequence of callable values of that
priority), a non-callable value is silently skipped (the registry is
unchanged and no error is raised), and reversing the list is exactly
the teardown order `destroy` uses. -/
theorem C1_registry_sorted_skip_and_teardown (ps : List PluginType) (k : Int)
    (s : St) (hm : s.main = true)
    (hcl : (s.loaded || s.loading) = true → s.hasClient = true)
    (hp : s.plugins = registerAll ps) :
    sortedDesc (registerAll ps)
    ∧ (∀ q ∈ registerAll ps, q.callable = true)
    ∧ (registerAll ps).filter (fun q => q.priority == k)
        = ps.filter (fun p => p.callable && p.priority == k)
    ∧ (∀ p : PluginType, p.callable = false → usesStep (registerAll ps) p = registerAll ps)
    ∧ ∃ s' tr, destroy s = .ok s' tr
        ∧ teardownEvents tr = (registerAll ps).reverse.map (fun p => p.id) := by
  obtain ⟨H1, H2, H3⟩ := registerAll_invariant ps [] (by simp [sortedDesc]) (by simp)
  refine ⟨H1, H2, by simpa using H3 k, ?_, ?_⟩
  · intro p hpc
    rw [usesStep, if_neg (by simp [hpc])]
  · refine ⟨_, _, destroy_spec s hm hcl, ?_⟩
    rw [hp.symm]
    by_cases h : (s.loaded || s.loading) = true <;>
      simp [h, teardownEvents, List.filterMap_append, List.filterMap_map,
            Function.comp_def, filterMap_const_none, filterMap_some_comp]

/-- C1 witness: the invariants evaluated on the concrete registration
sequence `regSeq1` (which contains a skipped non-callable and a
priority tie) and a container built from it. -/
theorem C1_witness :
    sortedDesc (registerAll regSeq1)
    ∧ (∀ q ∈ registerAll regSeq1, q.callable = true)
    ∧ (registerAll regSeq1).filter (fun q => q.priority == (5 : Int))
        = regSeq1.filter (fun p => p.callable && p.priority == (5 : Int))
    ∧ (∀ p : PluginType, p.callable = false → usesStep (registerAll regSeq1) p = registerAll regSeq1)
    ∧ ∃ s' tr, destroy stReg = .ok s' tr
        ∧ teardownEvents tr = (registerAll regSeq1).reverse.map (fun p => p.id) :=
  C1_registry_sorted_skip_and_teardown regSeq1 5 stReg rfl (fun _ => rfl) rfl

/-- C2 counterexample: calling `openPath` with the deprecated boolean
`options` argument `true` does not behave as a call with
`\x7bsinglePlay: true, playOptions\x7d`: the code hard-codes
`singlePlay: false`, so the `singlePlay` value responded over the
channel differs. -/
theorem C2_counterexample :
    openPath none "/game" (OpenArg.bool true) (Json.obj JsonFields.nil) st0
      ≠ internalOpen none "/game"
          { singlePlay := true, playOptions := some (Json.obj JsonFields.nil) } st0 :=
  fun h => absurd (congrArg respondedSinglePlays h) (by decide)

/-- C2 (amended): a boolean-valued `options` argument on `openPath` is
accepted and behaves as a call with options mapped to
`\x7bsinglePlay: false, playOptions: <the playOptions argument>\x7d` —
the boolean's own value is discarded. -/
theorem C2_amended_bool_options_mapped (features : Option String) (path : String)
    (b : Bool) (poArg : Json) (s : St) :
    openPath features path (OpenArg.bool b) poArg s
      = internalOpen features path { singlePlay := false, playOptions := some poArg } s :=
  rfl

/-- C3 (code-bug evaluation): when `Features.basic()` reports failure,
no messaging client is created, no plugin `open` hook runs and the
loading flag stays false — but instead of firing `unsupported` the call
throws: `reset()` already set `this.client` to `null` before
`this.client.trigger('unsupported')` runs. -/
theorem C3_unsupported_check_throws (e path : String) (opts : OpenOptions) (s : St)
    (hm : s.main = true)
    (hcl : (s.loaded || s.loading) = true → s.hasClient = true) :
    ∃ s' tr, internalOpen (some e) path opts s = .err s' tr "TypeError: this.client is null"
      ∧ s'.hasClient = false ∧ s'.loading = false ∧ s'.loaded = false
      ∧ Ev.localEvent "unsupported" ∉ tr
      ∧ (∀ i : Nat, Ev.hookOpen i ∉ tr) := by
  refine ⟨_, _, internalOpen_unsupported_spec e path opts s hm hcl, rfl, rfl, rfl, ?_, ?_⟩
  · by_cases h : (s.loaded || s.loading) = true <;> simp [h]
  · intro i
    by_cases h : (s.loaded || s.loading) = true <;> simp [h]

/-- C3 witness: the throwing run on a freshly constructed container. -/
theorem C3_witness :
    ∃ s' tr, internalOpen (some "err") "/game" { singlePlay := false, playOptions := none } st0
        = .err s' tr "TypeError: this.client is null"
      ∧ s'.hasClient = false ∧ s'.loading = false ∧ s'.loaded = false
      ∧ Ev.localEvent "unsupported" ∉ tr
      ∧ (∀ i : Nat, Ev.hookOpen i ∉ tr) :=
  C3_unsupported_check_throws "err" "/game" { singlePlay := false, playOptions := none }
    st0 rfl (fun _ => rfl)

/-- C4: the `loaded` handler sets `loading := false` and `loaded := true`,
removes the loading visual state, invokes each plugin's `opened` hook in
priority order and emits `opened`; a second `loaded` in the same cycle
runs without crashing and leaves the state unchanged (the flag writes are
idempotent). -/
theorem C4_onLoadDone_idempotent (s : St) (hm : s.main = true)
    (hc : s.hasClient = true) (_hl : s.loading = true) :
    ∃ s1 s2,
      onLoadDone s
          = .ok s1 (s.plugins.map (fun p => Ev.hookOpened p.id) ++ [Ev.localEvent "opened"])
      ∧ s1.loading = false ∧ s1.loaded = true ∧ s1.cssLoading = false
      ∧ onLoadDone s1
          = .ok s2 (s.plugins.map (fun p => Ev.hookOpened p.id) ++ [Ev.localEvent "opened"])
      ∧ s2 = s1 := by
  refine ⟨_, _, onLoadDone_spec s hm hc, rfl, rfl, rfl, onLoadDone_spec _ hm hc, rfl⟩

/-- C4 witness: the handler evaluated twice on a loading container. -/
theorem C4_witness :
    ∃ s1 s2,
      onLoadDone stLoading
          = .ok s1 (stLoading.plugins.map (fun p => Ev.hookOpened p.id) ++ [Ev.localEvent "opened"])
      ∧ s1.loading = false ∧ s1.loaded = true ∧ s1.cssLoading = false
      ∧ onLoadDone s1
          = .ok s2 (stLoading.plugins.map (fun p => Ev.hookOpened p.id) ++ [Ev.localEvent "opened"])
      ∧ s2 = s1 :=
  C4_onLoadDone_idempotent stLoading rfl rfl rfl

/-- C5: when `open` is invoked while the container is loaded or loading,
the full reset transition runs first: each plugin's `closed` hook fires
in reverse priority order, then the `closed` event, and only then does
the new session's trace (containing the `open` event) begin; no further
`closed` notification occurs inside the new session, and when nothing
was loaded or loading no `closed` hook or event fires at all. -/
theorem C5_reset_runs_before_new_open (path : String) (opts : OpenOptions) (s : St)
    (hm : s.main = true) :
    ((s.loaded || s.loading) = true → s.hasClient = true →
      ∃ s' rest, internalOpen none path opts s
          = .ok s' (s.plugins.reverse.map (fun p => Ev.hookClosed p.id)
              ++ Ev.localEvent "closed" :: rest)
        ∧ Ev.localEvent "open" ∈ rest
        ∧ Ev.localEvent "closed" ∉ rest
        ∧ (∀ i : Nat, Ev.hookClosed i ∉ rest))
    ∧ ((s.loaded || s.loading) = false →
      ∃ s' tr, internalOpen none path opts s = .ok s' tr
        ∧ closedHookEvents tr = []
        ∧ Ev.localEvent "closed" ∉ tr) := by
  constructor
  · intro h hc
    rw [internalOpen_ok path opts s hm (fun _ => hc)]
    refine ⟨{ s with
        hasClient := true,
        loaded := false,
        loading := true,
        src := computePath path opts.playOptions,
        cssLoading := true },
      s.plugins.map (fun p => Ev.hookOpen p.id)
        ++ [Ev.channelRespond "singlePlay" (RespVal.b opts.singlePlay),
            Ev.channelRespond "playOptions" (RespVal.po opts.playOptions),
            Ev.localEvent "open"], ?_, by simp, by simp, fun i => by simp⟩
    rw [if_pos h]
    simp
  · intro h
    have hc : (s.loaded || s.loading) = true → s.hasClient = true := by
      intro hh
      rw [h] at hh
      exact absurd hh (by simp)
    rw [internalOpen_ok path opts s hm hc]
    refine ⟨_, _, rfl, ?_, ?_⟩
    · rw [if_neg (by simp [h])]
      simp [closedHookEvents, List.filterMap_append, List.filterMap_cons,
            filterMap_const_none]
    · rw [if_neg (by simp [h])]
      simp

/-- C5 witness: reopening a loaded container. -/
theorem C5_witness :
    ((stLoaded.loaded || stLoaded.loading) = true → stLoaded.hasClient = true →
      ∃ s' rest, internalOpen none "/game2" { singlePlay := false, playOptions := none } stLoaded
          = .ok s' (stLoaded.plugins.reverse.map (fun p => Ev.hookClosed p.id)
              ++ Ev.localEvent "closed" :: rest)
        ∧ Ev.localEvent "open" ∈ rest
        ∧ Ev.localEvent "closed" ∉ rest
        ∧ (∀ i : Nat, Ev.hookClosed i ∉ rest))
    ∧ ((stLoaded.loaded || stLoaded.loading) = false →
      ∃ s' tr, internalOpen none "/game2" { singlePlay := false, playOptions := none } stLoaded
          = .ok s' tr
        ∧ closedHookEvents tr = []
        ∧ Ev.localEvent "closed" ∉ tr) :=
  C5_reset_runs_before_new_open "/game2" { singlePlay := false, playOptions := none } stLoaded rfl

/-- C6: `close()` on a loaded-or-loading container invokes each plugin's
`close` hook in priority order, emits the local `close` event and sends a
`close` request over the channel; on an idle container it performs the
reset transition directly, with an empty effect trace — in particular no
`close` channel message. -/
theorem C6_close_behavior (s : St) (hm : s.main = true) :
    ((s.loading || s.loaded) = true → s.hasClient = true →
      close s = .ok s (s.plugins.map (fun p => Ev.hookClose p.id)
        ++ [Ev.localEvent "close", Ev.channelSend "close"]))
    ∧ ((s.loading || s.loaded) = false →
      close s = reset s
      ∧ ∃ s', close s = .ok s' []
        ∧ s'.hasClient = false ∧ s'.loaded = false ∧ s'.loading = false
        ∧ s'.src = "" ∧ channelSends [] = []) := by
  constructor
  · intro hl hc
    exact close_spec_open s hl hc
  · intro hl
    have hlr : (s.loaded || s.loading) = false := by
      rcases Bool.or_eq_false_iff.mp hl with ⟨h1, h2⟩
      simp [h1, h2]
    have hcv : (s.loaded || s.loading) = true → s.hasClient = true := by
      intro hh
      rw [hlr] at hh
      exact absurd hh (by simp)
    refine ⟨close_spec_idle s hl,
      { s with
          hasClient := false,
          loaded := false,
          loading := false,
          src := "",
          cssLoading := false }, ?_, rfl, rfl, rfl, rfl, rfl⟩
    rw [close_spec_idle s hl, reset_spec s hm hcv, if_neg (by simp [hlr])]

/-- C6 witness: both branches evaluated — the close handshake on a
loaded container, the direct reset on a never-opened one. -/
theorem C6_witness :
    (((stLoaded.loading || stLoaded.loaded) = true → stLoaded.hasClient = true →
      close stLoaded = .ok stLoaded (stLoaded.plugins.map (fun p => Ev.hookClose p.id)
        ++ [Ev.localEvent "close", Ev.channelSend "close"]))
    ∧ ((stLoaded.loading || stLoaded.loaded) = false →
      close stLoaded = reset stLoaded
      ∧ ∃ s', close stLoaded = .ok s' []
        ∧ s'.hasClient = false ∧ s'.loaded = false ∧ s'.loading = false
        ∧ s'.src = "" ∧ channelSends [] = []))
    ∧ (((st0.loading || st0.loaded) = true → st0.hasClient = true →
      close st0 = .ok st0 (st0.plugins.map (fun p => Ev.hookClose p.id)
        ++ [Ev.localEvent "close", Ev.channelSend "close"]))
    ∧ ((st0.loading || st0.loaded) = false →
      close st0 = reset st0
      ∧ ∃ s', close st0 = .ok s' []
        ∧ s'.hasClient = false ∧ s'.loaded = false ∧ s'.loading = false
        ∧ s'.src = "" ∧ channelSends [] = [])) :=
  ⟨C6_close_behavior stLoaded rfl, C6_close_behavior st0 rfl⟩

/-- C7: on a successful open, when `playOptions` is non-null the iframe
src is the given path with `playOptions=<URL-encoded JSON>` appended as a
query parameter (with `?`, or `&` when the path already has a query), and
when `playOptions` is null the src is exactly the given path. -/
theorem C7_playOptions_query (path : String) (opts : OpenOptions) (s : St)
    (hm : s.main = true)
    (hcl : (s.loaded || s.loading) = true → s.hasClient = true) :
    (∀ po : Json, opts.playOptions = some po →
      ∃ s' tr, internalOpen none path opts s = .ok s' tr
        ∧ s'.src = path ++ (if containsChar path '?' then "&" else "?")
            ++ ("playOptions=" ++ encodeURIComponent (Json.stringify po)))
    ∧ (opts.playOptions = none →
      ∃ s' tr, internalOpen none path opts s = .ok s' tr ∧ s'.src = path) := by
  constructor
  · intro po hpo
    refine ⟨_, _, internalOpen_ok path opts s hm hcl, ?_⟩
    by_cases hq : containsChar path '?' <;>
      simp [computePath, hpo, hq, String.append_assoc]
  · intro hpo
    refine ⟨_, _, internalOpen_ok path opts s hm hcl, ?_⟩
    simp [computePath, hpo]

/-- C7 witness: the spec's scenario — `open('/game')` with
`playOptions: \x7blevel: 2\x7d` yields the literal src
`/game?playOptions=%7B%22level%22%3A2%7D`; with null play options the
src is `/game`. -/
theorem C7_witness :
    (∃ s' tr, internalOpen none "/game" { singlePlay := false, playOptions := some cPlayOptions } st0
        = .ok s' tr
      ∧ s'.src = "/game?playOptions=%7B%22level%22%3A2%7D")
    ∧ (∃ s' tr, internalOpen none "/game" { singlePlay := false, playOptions := none } st0
        = .ok s' tr
      ∧ s'.src = "/game") := by
  constructor
  · obtain ⟨h1, _⟩ := C7_playOptions_query "/game"
      { singlePlay := false, playOptions := some cPlayOptions } st0 rfl (fun _ => rfl)
    obtain ⟨s', tr, heq, hsrc⟩ := h1 cPlayOptions rfl
    refine ⟨s', tr, heq, ?_⟩
    rw [hsrc]
    decide
  · obtain ⟨_, h2⟩ := C7_playOptions_query "/game"
      { singlePlay := false, playOptions := none } st0 rfl (fun _ => rfl)
    exact h2 rfl

/-- C8: for every styles object of valid fields, `setCaptionsStyles`
followed by `getCaptionsStyles` returns the same values for the provided
fields, and `clearCaptionsStyles` resets every field to the documented
standard values (`size md`, `background black-semi`, `color white`, `edge none`,
`font arial`, `align top`) — in debug and production builds alike. -/
theorem C8_captions_roundtrip_and_clear (debug : Bool) (st : CaptionsStyles)
    (p : StylesPatch) (hst : validStyles st = true) (hp : validPatch p = true) :
    ∃ st', setCaptionsStyles debug st (.obj p) = .ok st'
      ∧ (∀ v, p.size = some v → getCaptionsStylesProp st' .size = v)
      ∧ (∀ v, p.background = some v → getCaptionsStylesProp st' .background = v)
      ∧ (∀ v, p.color = some v → getCaptionsStylesProp st' .color = v)
      ∧ (∀ v, p.edge = some v → getCaptionsStylesProp st' .edge = v)
      ∧ (∀ v, p.font = some v → getCaptionsStylesProp st' .font = v)
      ∧ (∀ v, p.align = some v → getCaptionsStylesProp st' .align = v)
      ∧ getCaptionsStyles st' = st'
      ∧ clearCaptionsStyles debug = .ok DEFAULT_CAPTIONS_STYLES
      ∧ DEFAULT_CAPTIONS_STYLES.size = "md"
      ∧ DEFAULT_CAPTIONS_STYLES.background = "black-semi"
      ∧ DEFAULT_CAPTIONS_STYLES.color = "white"
      ∧ DEFAULT_CAPTIONS_STYLES.edge = "none"
      ∧ DEFAULT_CAPTIONS_STYLES.font = "arial"
      ∧ DEFAULT_CAPTIONS_STYLES.align = "top" := by
  have hvalid := validStyles_applyPatch st p hst hp
  refine ⟨applyPatch st p, setCaptionsStyles_ok debug st p hvalid,
    ?_, ?_, ?_, ?_, ?_, ?_, rfl, ?_, rfl, rfl, rfl, rfl, rfl, rfl⟩
  · intro v hv
    simp [getCaptionsStylesProp, getField, applyPatch, hv]
  · intro v hv
    simp [getCaptionsStylesProp, getField, applyPatch, hv]
  · intro v hv
    simp [getCaptionsStylesProp, getField, applyPatch, hv]
  · intro v hv
    simp [getCaptionsStylesProp, getField, applyPatch, hv]
  · intro v hv
    simp [getCaptionsStylesProp, getField, applyPatch, hv]
  · intro v hv
    simp [getCaptionsStylesProp, getField, applyPatch, hv]
  · cases debug with
    | false => rfl
    | true => rfl

/-- C8 witness: the repository test's patch `\x7bfont: 'comic-sans'\x7d`
applied in the debug build to the default styles. -/
theorem C8_witness :
    ∃ st', setCaptionsStyles true DEFAULT_CAPTIONS_STYLES (.obj cPatch) = .ok st'
      ∧ (∀ v, cPatch.size = some v → getCaptionsStylesProp st' .size = v)
      ∧ (∀ v, cPatch.background = some v → getCaptionsStylesProp st' .background = v)
      ∧ (∀ v, cPatch.color = some v → getCaptionsStylesProp st' .color = v)
      ∧ (∀ v, cPatch.edge = some v → getCaptionsStylesProp st' .edge = v)
      ∧ (∀ v, cPatch.font = some v → getCaptionsStylesProp st' .font = v)
      ∧ (∀ v, cPatch.align = some v → getCaptionsStylesProp st' .align = v)
      ∧ getCaptionsStyles st' = st'
      ∧ clearCaptionsStyles true = .ok DEFAULT_CAPTIONS_STYLES
      ∧ DEFAULT_CAPTIONS_STYLES.size = "md"
      ∧ DEFAULT_CAPTIONS_STYLES.background = "black-semi"
      ∧ DEFAULT_CAPTIONS_STYLES.color = "white"
      ∧ DEFAULT_CAPTIONS_STYLES.edge = "none"
      ∧ DEFAULT_CAPTIONS_STYLES.font = "arial"
      ∧ DEFAULT_CAPTIONS_STYLES.align = "top" :=
  C8_captions_roundtrip_and_clear true DEFAULT_CAPTIONS_STYLES cPatch (by decide) (by decide)

/-- C9: constructing a Container with an iframe selector that resolves to
no element throws immediately (the documented error), and construction
aborts: no container state is produced. -/
theorem C9_missing_iframe_selector_throws (registry : List PluginType) :
    constructContainer none registry
      = .error "No iframe was found with the provided selector" :=
  rfl

/-- C10: `Container.uses()` with the argument omitted defaults the
parameter to `BasePlugin`, which passes the callability check, so a
plugin is appended to the registry; only explicitly supplied
non-callable values are silently skipped. -/
theorem C10_uses_default_registers (priority : Int) (l : List PluginType) :
    (usesNoArg priority l).length = l.length + 1
    ∧ BasePluginModel priority ∈ usesNoArg priority l
    ∧ (∀ p : PluginType, p.callable = false → usesStep l p = l) := by
  have hu : usesNoArg priority l = sortDesc (l ++ [BasePluginModel priority]) := rfl
  refine ⟨?_, ?_, ?_⟩
  · rw [hu, length_sortDesc]
    simp
  · rw [hu, mem_sortDesc]
    simp
  · intro p hpc
    rw [usesStep, if_neg (by simp [hpc])]

end SpringRoll
